import Mathlib

/-!
Verification of the cellxgene-census thin open layer: the release-directory
manifest, the mirror registry, version/mirror resolution, and the locator
handed to the external storage-open call. The Python modules that implement
this layer (the package's open and release-directory modules) are not among
the visible sources, so the operations below are modelled from the
specification, with the repository's own test data used as concrete inputs.
-/

/-- Modelled from the spec: the storage record kept under the `soma` and
`h5ads` keys of a release manifest entry, `{uri, relative_uri?, s3_region?}`
(the release-directory module is missing from the visible sources). -/
structure CensusLocator where
  uri : String
  relative_uri : Option String
  s3_region : Option String
deriving DecidableEq

/-- Modelled from the spec: a release record of the directory manifest,
`{release_date, release_build, soma, h5ads}`. -/
structure CensusVersionDescription where
  release_date : Option String
  release_build : String
  soma : CensusLocator
  h5ads : CensusLocator
deriving DecidableEq

/-- Modelled from the spec: a manifest entry is either an alias (a version
label such as "latest" naming another label) or a release record. -/
inductive CensusDirectoryEntry where
  | label (target : String)
  | record (description : CensusVersionDescription)
deriving DecidableEq

/-- Modelled from the spec: the release-directory manifest, a mapping from
version label to entry, kept as an association list in fetch order. -/
abbrev CensusDirectory := List (String × CensusDirectoryEntry)

/-- Modelled from the spec: a mirror record `{protocol, bucket, region}`. -/
structure CensusMirror where
  protocol : String
  bucket : String
  region : String
deriving DecidableEq

/-- Modelled from the spec: the mirror registry, a mapping from mirror name to
mirror record, plus a `default` key naming the mirror used when none is
specified. -/
structure CensusMirrors where
  default : String
  mirrors : List (String × CensusMirror)
deriving DecidableEq

/-- Modelled from the spec: the resolved locator `{uri, s3_region}`, the only
value handed to the external storage-open call. -/
structure ResolvedLocator where
  uri : String
  s3_region : Option String
deriving DecidableEq

/-- Modelled from the spec: the user-visible error kinds are value errors and
key errors, each carrying a message. -/
inductive CensusError where
  | valueError (msg : String)
  | keyError (msg : String)
deriving DecidableEq

/-- Modelled from the spec: look a version label up in the fetched directory,
following aliases (fuel bounds the chain length) until a release record is
reached; a missing label or a dangling alias yields none. -/
def resolveDirectoryValue (d : CensusDirectory) : Nat → String → Option CensusVersionDescription
  | 0, _ => none
  | fuel + 1, v =>
    match List.lookup v d with
    | some (.record r) => some r
    | some (.label t) => resolveDirectoryValue d fuel t
    | none => none

/-- Modelled from the spec: `get_census_version_description`; an unknown
version raises a value error naming the invalid version. -/
def get_census_version_description (d : CensusDirectory) (census_version : String) :
    Except CensusError CensusVersionDescription :=
  match resolveDirectoryValue d (d.length + 1) census_version with
  | some r => Except.ok r
  | none =>
      Except.error (CensusError.valueError ("The \"" ++ census_version ++
        "\" Census version is not valid. Use get_census_version_directory() to retrieve available versions."))

/-- Modelled from the spec: the version resolution used by `open_soma`; a
"stable" label missing from the manifest falls back to "latest" without
error. -/
def resolve_census_version (d : CensusDirectory) (census_version : String) :
    Except CensusError CensusVersionDescription :=
  match get_census_version_description d census_version with
  | Except.ok r => Except.ok r
  | Except.error e =>
      if census_version = "stable" then get_census_version_description d "latest"
      else Except.error e

/-- Modelled from the spec: mirror selection; the registry's `default` key
names the mirror used when none is specified, and an unknown mirror name
raises the key error "Mirror not found.". -/
def get_census_mirror (md : CensusMirrors) (mirror : Option String) :
    Except CensusError CensusMirror :=
  match List.lookup (mirror.getD md.default) md.mirrors with
  | some m => Except.ok m
  | none => Except.error (CensusError.keyError ("Mirror not found."))

/-- ASCII lowercasing of a string, character by character. -/
def lower_case (s : String) : String :=
  String.mk (s.data.map Char.toLower)

/-- Modelled from the spec: the base URI of a mirror, formed from its declared
protocol and bucket. -/
def mirror_base_uri (m : CensusMirror) : String :=
  lower_case m.protocol ++ "://" ++ m.bucket

/-- Modelled from the spec: if the manifest entry has `relative_uri`, join it
with the resolved mirror to form the absolute URI and take the mirror's
region; otherwise use the entry's absolute `uri` and `s3_region` directly
(backward-compatibility path). -/
def resolve_census_locator (loc : CensusLocator) (m : CensusMirror) : ResolvedLocator :=
  match loc.relative_uri with
  | some rel => { uri := mirror_base_uri m ++ rel, s3_region := some m.region }
  | none => { uri := loc.uri, s3_region := loc.s3_region }

/-- Modelled from the spec: the census version used when the caller omits the
argument; explicitly passing none is distinct from omitting it. -/
def DEFAULT_CENSUS_VERSION : Option String := some ("stable")

/-- Modelled from the spec: the `open_soma` resolution pipeline — resolve the
version, then the mirror, then hand the resolved locator to the external
storage-open call. An ok result is the locator passed to that call; an error
result is raised before any remote open attempt is made. An explicit `uri`
bypasses resolution; a missing version with no `uri` is a value error. -/
def open_soma (d : CensusDirectory) (md : CensusMirrors) (census_version : Option String)
    (uri : Option String) (mirror : Option String) : Except CensusError ResolvedLocator :=
  match uri with
  | some u => Except.ok { uri := u, s3_region := none }
  | none =>
    match census_version with
    | none => Except.error (CensusError.valueError ("Must specify either a census version or an explicit URI."))
    | some v =>
      match resolve_census_version d v with
      | Except.error e => Except.error e
      | Except.ok r =>
        match get_census_mirror md mirror with
        | Except.error e => Except.error e
        | Except.ok m => Except.ok (resolve_census_locator r.soma m)

/-- Modelled from the spec: the census datasets table, reduced to the mapping
from `dataset_id` to `dataset_h5ad_path`. -/
abbrev DatasetsTable := List (String × String)

/-- Modelled from the spec: `get_source_h5ad_uri` resolves the requested
version and the default mirror, then locates the dataset's source file under
the resolved `h5ads` locator; a `dataset_id` absent from the datasets table
raises a key error. -/
def get_source_h5ad_uri (d : CensusDirectory) (md : CensusMirrors) (datasets : DatasetsTable)
    (census_version : String) (dataset_id : String) : Except CensusError ResolvedLocator :=
  match resolve_census_version d census_version with
  | Except.error e => Except.error e
  | Except.ok r =>
    match get_census_mirror md none with
    | Except.error e => Except.error e
    | Except.ok m =>
      match List.lookup dataset_id datasets with
      | none => Except.error (CensusError.keyError ("Unknown dataset " ++ dataset_id))
      | some h5ad_path =>
        let base := resolve_census_locator r.h5ads m
        Except.ok { uri := base.uri ++ h5ad_path, s3_region := base.s3_region }

/-- Modelled from the spec: the minimal file-system state the download
convenience touches — the set of existing files and existing directories. -/
structure FileSystem where
  files : List String
  dirs : List String
deriving DecidableEq

/-- Parent directory of a path: the path with its last slash-separated
component (and the slash before it) removed. -/
def parent_dir (p : String) : String :=
  String.mk (((p.data.reverse.dropWhile (fun c => c != '/')).drop 1).reverse)

/-- Modelled from the spec: `download_source_h5ad` writes the located source
file to `to_path`; it fails with a value error (the download-destination
conflict kind) if the destination already exists or its parent directory is
missing. -/
def download_source_h5ad (d : CensusDirectory) (md : CensusMirrors) (datasets : DatasetsTable)
    (census_version : String) (dataset_id : String) (fs : FileSystem) (to_path : String) :
    Except CensusError FileSystem :=
  if to_path ∈ fs.files then
    Except.error (CensusError.valueError ("Path exists: " ++ to_path))
  else if parent_dir to_path ∈ fs.dirs then
    match get_source_h5ad_uri d md datasets census_version dataset_id with
    | Except.error e => Except.error e
    | Except.ok _ => Except.ok { fs with files := to_path :: fs.files }
  else
    Except.error (CensusError.valueError ("Directory does not exist: " ++ parent_dir to_path))

/-! Concrete inputs, taken from the repository's tests of the mirror and
fallback behaviour. -/

/-- The release record of version "2022-11-01" used by the mirror test. -/
def exRecord : CensusVersionDescription :=
  { release_date := some ("2022-11-30"),
    release_build := "2022-11-01",
    soma := { uri := "s3://ignored-bucket/cell-census/2022-11-01/soma/",
              relative_uri := some ("/cell-census/2022-11-01/soma/"),
              s3_region := some ("ignored") },
    h5ads := { uri := "s3://ignored-bucket/cell-census/2022-11-01/h5ads/",
               relative_uri := some ("/cell-census/2022-11-01/soma/"),
               s3_region := some ("ignored") } }

/-- A release directory with a "latest" alias and no "stable" label. -/
def exDirectory : CensusDirectory :=
  [("latest", CensusDirectoryEntry.label ("2022-11-01")),
   ("2022-11-01", CensusDirectoryEntry.record exRecord)]

/-- The first test mirror. -/
def exMirror1 : CensusMirror :=
  { protocol := "S3", bucket := "mirror-bucket-1", region := "region-1" }

/-- The second test mirror. -/
def exMirror2 : CensusMirror :=
  { protocol := "S3", bucket := "mirror-bucket-2", region := "region-2" }

/-- The mirror registry of the mirror test: two mirrors, defaulting to the
first. -/
def exMirrors : CensusMirrors :=
  { default := "test-mirror",
    mirrors := [("test-mirror", exMirror1), ("test-mirror-2", exMirror2)] }

/-- The release record of version "2022-10-01" used by the stable-default
test. -/
def exRecordStable : CensusVersionDescription :=
  { release_date := some ("2022-10-30"),
    release_build := "2022-10-01",
    soma := { uri := "s3://cellxgene-data-public/cell-census/2022-10-01/soma/",
              relative_uri := some ("/cell-census/2022-10-01/soma/"),
              s3_region := some ("us-west-2") },
    h5ads := { uri := "s3://cellxgene-data-public/cell-census/2022-10-01/h5ads/",
               relative_uri := some ("/cell-census/2022-10-01/soma/"),
               s3_region := some ("us-west-2") } }

/-- A release directory carrying a "stable" alias. -/
def exDirectoryStable : CensusDirectory :=
  [("stable", CensusDirectoryEntry.label ("2022-10-01")),
   ("2022-10-01", CensusDirectoryEntry.record exRecordStable)]

/-- The release record of the backward-compatibility test, whose locators
carry no `relative_uri`. -/
def exRecordNoRel : CensusVersionDescription :=
  { release_date := some ("2022-11-30"),
    release_build := "2022-11-01",
    soma := { uri := "s3://bucket-from-absolute-uri/cell-census/2022-11-01/soma/",
              relative_uri := none,
              s3_region := some ("us-west-2") },
    h5ads := { uri := "s3://bucket-from-absolute-uri/cell-census/2022-11-01/h5ads/",
               relative_uri := none,
               s3_region := some ("us-west-2") } }

/-- A release directory whose record has no `relative_uri`. -/
def exDirectoryNoRel : CensusDirectory :=
  [("latest", CensusDirectoryEntry.label ("2022-11-01")),
   ("2022-11-01", CensusDirectoryEntry.record exRecordNoRel)]

/-- A small datasets table. -/
def exDatasets : DatasetsTable :=
  [("dsid-1", "file-1.h5ad")]

/-- A small file-system state with one existing file. -/
def exFS : FileSystem :=
  { files := ["/tmp/out/existing_file.h5ad"], dirs := ["/tmp", "/tmp/out"] }

/-! Claims. -/

/-- C1: for every manifest entry of the resolved version whose soma record
carries a `relative_uri`, `open_soma` forms the locator uri by joining the
resolved mirror with that relative path — the entry's own absolute uri and
s3_region are ignored — and for every entry without a `relative_uri` the
entry's absolute uri and s3_region are used directly as the locator. -/
theorem C1_locator_resolution (d : CensusDirectory) (md : CensusMirrors) (v : String)
    (mirror : Option String) (r : CensusVersionDescription) (m : CensusMirror)
    (hv : resolve_census_version d v = Except.ok r)
    (hm : get_census_mirror md mirror = Except.ok m) :
    open_soma d md (some v) none mirror = Except.ok (resolve_census_locator r.soma m) ∧
    (∀ rel, r.soma.relative_uri = some rel →
      resolve_census_locator r.soma m =
        { uri := mirror_base_uri m ++ rel, s3_region := some m.region }) ∧
    (∀ rel u1 s1 u2 s2,
      resolve_census_locator { uri := u1, relative_uri := some rel, s3_region := s1 } m =
        resolve_census_locator { uri := u2, relative_uri := some rel, s3_region := s2 } m) ∧
    (r.soma.relative_uri = none →
      resolve_census_locator r.soma m = { uri := r.soma.uri, s3_region := r.soma.s3_region }) := by
  refine ⟨?_, ?_, ?_, ?_⟩
  · simp [open_soma, hv, hm]
  · intro rel hrel
    simp [resolve_census_locator, hrel]
  · intro rel u1 s1 u2 s2
    rfl
  · intro hrel
    simp [resolve_census_locator, hrel]

/-- Witness for C1 at the repository's mirror-test data. -/
theorem C1_witness :
    open_soma exDirectory exMirrors (some ("latest")) none none =
      Except.ok (resolve_census_locator exRecord.soma exMirror1) :=
  (C1_locator_resolution exDirectory exMirrors ("latest") none exRecord exMirror1 rfl rfl).1

/-- C2 as stated is false: with a manifest that lacks the label "stable" but
has "latest", requesting the not-present version "stable" raises no error at
all — it resolves to the latest entry's locator. -/
theorem C2_counterexample :
    List.lookup ("stable") exDirectory = none ∧
    open_soma exDirectory exMirrors (some ("stable")) none none =
      Except.ok { uri := "s3://mirror-bucket-1/cell-census/2022-11-01/soma/",
                  s3_region := some ("region-1") } :=
  ⟨rfl, rfl⟩

/-- C2 (amended): for every call to `open_soma` with a version string other
than "stable" that is not present in the release manifest, a value error is
raised whose message names the invalid version, and no locator is handed to
the storage-open call. -/
theorem C2_unknown_version_value_error (d : CensusDirectory) (md : CensusMirrors)
    (v : String) (mirror : Option String)
    (hne : v ≠ "stable") (habsent : List.lookup v d = none) :
    open_soma d md (some v) none mirror =
      Except.error (CensusError.valueError ("The \"" ++ v ++
        "\" Census version is not valid. Use get_census_version_directory() to retrieve available versions.")) := by
  have hres : resolveDirectoryValue d (d.length + 1) v = none := by
    simp [resolveDirectoryValue, habsent]
  simp [open_soma, resolve_census_version, get_census_version_description, hres, hne]

/-- Witness for C2 at the version string of the repository's error test. -/
theorem C2_witness :
    open_soma exDirectory exMirrors (some ("does-not-exist")) none none =
      Except.error (CensusError.valueError ("The \"" ++ "does-not-exist" ++
        "\" Census version is not valid. Use get_census_version_directory() to retrieve available versions.")) :=
  C2_unknown_version_value_error exDirectory exMirrors ("does-not-exist") none (by decide) rfl

/-- C3 as stated is false: a call naming an unregistered mirror together with
an unresolvable version raises the invalid-version value error, not the
"Mirror not found." key error, because the version is resolved first. -/
theorem C3_counterexample :
    List.lookup ("bogus-mirror") exMirrors.mirrors = none ∧
    open_soma exDirectory exMirrors (some ("does-not-exist")) none (some ("bogus-mirror")) =
      Except.error (CensusError.valueError ("The \"does-not-exist\" Census version is not valid. Use get_census_version_directory() to retrieve available versions.")) :=
  ⟨rfl, rfl⟩

/-- C3 (amended): for every call to `open_soma` whose version resolves in the
manifest and whose mirror name is not present in the mirror registry, a key
error with message "Mirror not found." is raised, and no locator is handed to
the storage-open call. -/
theorem C3_unknown_mirror_key_error (d : CensusDirectory) (md : CensusMirrors)
    (v : String) (r : CensusVersionDescription) (n : String)
    (hv : resolve_census_version d v = Except.ok r)
    (hm : List.lookup n md.mirrors = none) :
    open_soma d md (some v) none (some n) =
      Except.error (CensusError.keyError ("Mirror not found.")) := by
  simp [open_soma, hv, get_census_mirror, Option.getD, hm]

/-- Witness for C3 at the mirror name of the repository's mirror test. -/
theorem C3_witness :
    open_soma exDirectory exMirrors (some ("latest")) none (some ("bogus-mirror")) =
      Except.error (CensusError.keyError ("Mirror not found.")) :=
  C3_unknown_mirror_key_error exDirectory exMirrors ("latest") exRecord ("bogus-mirror") rfl rfl

/-- C4: for every release manifest that lacks a "stable" label but resolves
"latest", resolving the version "stable" raises no error and returns the
locator of the entry that "latest" designates. -/
theorem C4_stable_falls_back_to_latest (d : CensusDirectory) (md : CensusMirrors)
    (mirror : Option String) (r : CensusVersionDescription) (m : CensusMirror)
    (hstable : List.lookup ("stable") d = none)
    (hlatest : get_census_version_description d ("latest") = Except.ok r)
    (hm : get_census_mirror md mirror = Except.ok m) :
    open_soma d md (some ("stable")) none mirror =
      Except.ok (resolve_census_locator r.soma m) := by
  have h0 : resolveDirectoryValue d (d.length + 1) ("stable") = none := by
    simp [resolveDirectoryValue, hstable]
  have h2 : get_census_version_description d ("stable") =
      Except.error (CensusError.valueError ("The \"" ++ "stable" ++
        "\" Census version is not valid. Use get_census_version_directory() to retrieve available versions.")) := by
    simp [get_census_version_description, h0]
  have h1 : resolve_census_version d ("stable") = Except.ok r := by
    unfold resolve_census_version
    rw [h2]
    simp [hlatest]
  simp [open_soma, h1, hm]

/-- Witness for C4 at the repository's missing-stable test data. -/
theorem C4_witness :
    open_soma exDirectory exMirrors (some ("stable")) none none =
      Except.ok (resolve_census_locator exRecord.soma exMirror1) :=
  C4_stable_falls_back_to_latest exDirectory exMirrors none exRecord exMirror1 rfl rfl rfl

/-- C5: the mirror used for resolution is the one named by the mirror
argument when one is given, and otherwise the one the registry's default key
names; in either case, for an entry carrying a `relative_uri`, the resolved
locator's uri uses the selected mirror's bucket and its s3_region equals the
selected mirror's region. -/
theorem C5_mirror_selection (d : CensusDirectory) (md : CensusMirrors) (v : String)
    (r : CensusVersionDescription) (rel n : String) (m mdef : CensusMirror)
    (hv : resolve_census_version d v = Except.ok r)
    (hrel : r.soma.relative_uri = some rel)
    (hm : List.lookup n md.mirrors = some m)
    (hdef : List.lookup md.default md.mirrors = some mdef) :
    open_soma d md (some v) none (some n) =
      Except.ok { uri := mirror_base_uri m ++ rel, s3_region := some m.region } ∧
    open_soma d md (some v) none none =
      Except.ok { uri := mirror_base_uri mdef ++ rel, s3_region := some mdef.region } := by
  constructor
  · simp [open_soma, hv, get_census_mirror, Option.getD, hm, resolve_census_locator, hrel]
  · simp [open_soma, hv, get_census_mirror, Option.getD, hdef, resolve_census_locator, hrel]

/-- Witness for C5 at the repository's mirror-test data: the explicitly named
second mirror yields its own bucket and region, which differ from the default
mirror's. -/
theorem C5_witness :
    (open_soma exDirectory exMirrors (some ("latest")) none (some ("test-mirror-2")) =
      Except.ok { uri := mirror_base_uri exMirror2 ++ "/cell-census/2022-11-01/soma/",
                  s3_region := some (exMirror2.region) } ∧
     open_soma exDirectory exMirrors (some ("latest")) none none =
      Except.ok { uri := mirror_base_uri exMirror1 ++ "/cell-census/2022-11-01/soma/",
                  s3_region := some (exMirror1.region) }) ∧
    exMirror2.region ≠ exMirror1.region :=
  ⟨C5_mirror_selection exDirectory exMirrors ("latest") exRecord
      ("/cell-census/2022-11-01/soma/") ("test-mirror-2") exMirror2 exMirror1 rfl rfl rfl rfl,
   by decide⟩

/-- C6: when `open_soma` is called without a version identifier the version
defaults to "stable"; a manifest containing "stable" resolves to the entry it
designates and the call returns that entry's resolved locator. -/
theorem C6_defaults_to_stable (d : CensusDirectory) (md : CensusMirrors)
    (mirror : Option String) (r : CensusVersionDescription) (m : CensusMirror)
    (hstable : get_census_version_description d ("stable") = Except.ok r)
    (hm : get_census_mirror md mirror = Except.ok m) :
    open_soma d md DEFAULT_CENSUS_VERSION none mirror =
      Except.ok (resolve_census_locator r.soma m) := by
  have h1 : resolve_census_version d ("stable") = Except.ok r := by
    simp [resolve_census_version, hstable]
  simp [open_soma, DEFAULT_CENSUS_VERSION, h1, hm]

/-- Witness for C6 at the repository's stable-default test data. -/
theorem C6_witness :
    open_soma exDirectoryStable exMirrors DEFAULT_CENSUS_VERSION none none =
      Except.ok (resolve_census_locator exRecordStable.soma exMirror1) :=
  C6_defaults_to_stable exDirectoryStable exMirrors none exRecordStable exMirror1 rfl rfl

/-- C7: for every version present in the manifest, resolution returns a
locator whose s3_region is the selected mirror's region when a relative uri
is joined, and the manifest entry's region when the absolute uri is used. -/
theorem C7_region_matches_mirror_or_manifest (d : CensusDirectory) (md : CensusMirrors)
    (v : String) (mirror : Option String) (r : CensusVersionDescription) (m : CensusMirror)
    (hv : get_census_version_description d v = Except.ok r)
    (hm : get_census_mirror md mirror = Except.ok m) :
    ∃ loc, open_soma d md (some v) none mirror = Except.ok loc ∧
      loc.s3_region = (match r.soma.relative_uri with
        | some _ => some m.region
        | none => r.soma.s3_region) := by
  have h1 : resolve_census_version d v = Except.ok r := by
    simp [resolve_census_version, hv]
  refine ⟨resolve_census_locator r.soma m, by simp [open_soma, h1, hm], ?_⟩
  cases hrel : r.soma.relative_uri with
  | none => simp [resolve_census_locator, hrel]
  | some rel => simp [resolve_census_locator, hrel]

/-- Witness for C7 at the backward-compatibility test data, where the entry
has no relative uri and the manifest region is kept. -/
theorem C7_witness :
    ∃ loc, open_soma exDirectoryNoRel exMirrors (some ("latest")) none none = Except.ok loc ∧
      loc.s3_region = (match exRecordNoRel.soma.relative_uri with
        | some _ => some exMirror1.region
        | none => exRecordNoRel.soma.s3_region) :=
  C7_region_matches_mirror_or_manifest exDirectoryNoRel exMirrors ("latest") none
    exRecordNoRel exMirror1 rfl rfl

/-- C8: `download_source_h5ad` raises a value error (the
download-destination-conflict kind) when the destination path already exists
as a file, and the same error kind when the destination's parent directory
does not exist. -/
theorem C8_download_destination_conflict (d : CensusDirectory) (md : CensusMirrors)
    (datasets : DatasetsTable) (v ds : String) (fs : FileSystem) (p : String) :
    (p ∈ fs.files →
      download_source_h5ad d md datasets v ds fs p =
        Except.error (CensusError.valueError ("Path exists: " ++ p))) ∧
    (p ∉ fs.files → parent_dir p ∉ fs.dirs →
      download_source_h5ad d md datasets v ds fs p =
        Except.error (CensusError.valueError ("Directory does not exist: " ++ parent_dir p))) := by
  constructor
  · intro h
    simp [download_source_h5ad, h]
  · intro h1 h2
    simp [download_source_h5ad, h1, h2]

/-- Witness for C8: downloading onto an existing file fails, and downloading
into a missing directory fails with the same error kind. -/
theorem C8_witness :
    download_source_h5ad exDirectory exMirrors exDatasets ("latest") ("dsid-1") exFS
        ("/tmp/out/existing_file.h5ad") =
      Except.error (CensusError.valueError ("Path exists: " ++ "/tmp/out/existing_file.h5ad")) ∧
    download_source_h5ad exDirectory exMirrors exDatasets ("latest") ("dsid-1") exFS
        ("/tmp/dirname/out.h5ad") =
      Except.error (CensusError.valueError
        ("Directory does not exist: " ++ parent_dir ("/tmp/dirname/out.h5ad"))) :=
  ⟨(C8_download_destination_conflict exDirectory exMirrors exDatasets ("latest") ("dsid-1")
      exFS ("/tmp/out/existing_file.h5ad")).1 (by decide),
   (C8_download_destination_conflict exDirectory exMirrors exDatasets ("latest") ("dsid-1")
      exFS ("/tmp/dirname/out.h5ad")).2 (by decide) (by decide)⟩

/-- C9: calling `open_soma` with the census version explicitly set to none
and no explicit URI does not default to "stable" or "latest": whatever the
manifest and registry hold, it raises the value error "Must specify either a
census version or an explicit URI.". -/
theorem C9_none_version_requires_uri (d : CensusDirectory) (md : CensusMirrors)
    (mirror : Option String) :
    open_soma d md none none mirror =
      Except.error (CensusError.valueError ("Must specify either a census version or an explicit URI.")) :=
  rfl

/-- C10: `get_source_h5ad_uri` raises a key error for every dataset id that
is not present in the census datasets table, rather than returning a locator
or a value error. -/
theorem C10_unknown_dataset_key_error (d : CensusDirectory) (md : CensusMirrors)
    (datasets : DatasetsTable) (v ds : String) (r : CensusVersionDescription) (m : CensusMirror)
    (hv : resolve_census_version d v = Except.ok r)
    (hm : get_census_mirror md none = Except.ok m)
    (hds : List.lookup ds datasets = none) :
    get_source_h5ad_uri d md datasets v ds =
      Except.error (CensusError.keyError ("Unknown dataset " ++ ds)) := by
  simp [get_source_h5ad_uri, hv, hm, hds]

/-- Witness for C10 at the dataset id of the repository's error test. -/
theorem C10_witness :
    get_source_h5ad_uri exDirectory exMirrors exDatasets ("latest") ("no/such/id") =
      Except.error (CensusError.keyError ("Unknown dataset " ++ "no/such/id")) :=
  C10_unknown_dataset_key_error exDirectory exMirrors exDatasets ("latest") ("no/such/id")
    exRecord exMirror1 rfl rfl rfl
